import Mathlib

/-!
Verification of the ALTCHA starter server core.

The repository's own source (src/index.ts) is an HTTP wrapper around four
core operations imported from the `altcha-lib` dependency:
`createChallenge`, `verifySolution`, `verifyServerSignature` and
`verifyFieldsHash`.  The library code is not part of the repository, so the
four operations are modelled from the specification (each such definition
carries a doc comment starting with `Modelled from the spec:`); the route
handlers (`GET /altcha`, `POST /submit`, `POST /submit_spam_filter`) are
embedded directly from src/index.ts.

The hash and HMAC primitives are abstracted as an explicit `Crypto`
parameter: every definition stays executable once a concrete `Crypto`
instance is supplied, and cryptographic assumptions (collision freeness at
the relevant points) appear as explicit hypotheses of the theorems and are
discharged by computation on a concrete instance in the witnesses.
-/

namespace Altcha

/-- Abstract hashing/HMAC primitive.  `hash alg msg` models the hex digest
of `msg` under the digest algorithm named `alg`; `hmac alg key msg` models
the hex HMAC of `msg` under `key`. -/
structure Crypto where
  hash : String → String → String
  hmac : String → String → String → String

/-- Solution payload submitted by the client:
`{algorithm, challenge, number, salt, signature}`. -/
structure Payload where
  algorithm : String
  challenge : String
  number : Nat
  salt : String
  signature : String
deriving DecidableEq, Repr

/-- Challenge issued to the client:
`{algorithm, challenge, salt, signature, maxnumber}`. -/
structure Challenge where
  algorithm : String
  challenge : String
  salt : String
  signature : String
  maxnumber : Nat
deriving DecidableEq, Repr

/-- Splits a character list at the first `?`: the part before it paired
with (optionally) the part after it. -/
def splitAtQmark : List Char → List Char × Option (List Char)
  | [] => ([], none)
  | c :: cs =>
    if c = '?' then ([], some cs)
    else
      let r := splitAtQmark cs
      (c :: r.1, r.2)

/-- Reads a decimal numeral from a character list; `none` when a
non-digit occurs. -/
def parseDigits : List Char → Nat → Option Nat
  | [], acc => some acc
  | c :: cs, acc =>
    if c.isDigit then parseDigits cs (acc * 10 + (c.toNat - 48))
    else none

/-- Modelled from the spec: the salt optionally carries an embedded expiry
marker (`...?expires=T`); this extracts it when present. -/
def extractExpires (salt : String) : Option Nat :=
  match (splitAtQmark salt.toList).2 with
  | none => none
  | some rest =>
    if rest.take 8 = "expires=".toList ∧ rest.drop 8 ≠ [] then
      parseDigits (rest.drop 8) 0
    else none

/-- Modelled from the spec: the expiry step of solution verification.
When `checkExpiry` is set and the salt encodes an expiry marker `t`, the
check passes only while `now ≤ t`; a past marker (`t < now`) fails. -/
def expiryOk (checkExpiry : Bool) (salt : String) (now : Nat) : Bool :=
  if checkExpiry then
    match extractExpires salt with
    | some t => decide (now ≤ t)
    | none => true
  else true

/-- Modelled from the spec: `SolutionVerifier.verify` on an already decoded
payload.  Recomputes `hash(algorithm, salt ++ number)` against `challenge`,
recomputes `HMAC(secretKey, challenge)` against `signature`, and applies
the expiry check; all three must pass. -/
def verifySolutionDecoded (C : Crypto) (key : String) (p : Payload)
    (now : Nat) (checkExpiry : Bool) : Bool :=
  (C.hash p.algorithm (p.salt ++ toString p.number) == p.challenge)
    && (C.hmac p.algorithm key p.challenge == p.signature)
    && expiryOk checkExpiry p.salt now

/-- Modelled from the spec: `verifySolution(payload, secretKey, checkExpiry)`.
The transport decoding is abstracted as an explicit `decode` function;
decoding failure is simply "not verified" (`false`), never a fault. -/
def verifySolution (C : Crypto) (decode : String → Option Payload)
    (raw key : String) (now : Nat) (checkExpiry : Bool) : Bool :=
  match decode raw with
  | none => false
  | some p => verifySolutionDecoded C key p now checkExpiry

/-- Modelled from the spec: the salt is unpredictable random text, with the
expiry marker embedded when an expiry is requested. -/
def mkSalt (randSalt : String) (expires : Option Nat) : String :=
  randSalt ++ (match expires with
    | none => ""
    | some t => "?expires=" ++ toString t)

/-- Modelled from the spec: the hidden number is drawn uniformly from
`[0, maxNumber]`; the injected random value is reduced into that range. -/
def chosenNumber (randNumber maxNumber : Nat) : Nat :=
  randNumber % (maxNumber + 1)

/-- The configuration error reported on invalid issuance parameters. -/
def configurationError : String :=
  "ConfigurationError: maxNumber must be positive"

/-- Modelled from the spec: `ChallengeIssuer.issue`.  Randomness is
injected (`randNumber`, `randSalt`).  Misconfiguration (`maxNumber ≤ 0`)
is reported as a configuration error, never silently clamped. -/
def createChallenge (C : Crypto) (key alg : String) (maxNumber : Nat)
    (randNumber : Nat) (randSalt : String) (expires : Option Nat) :
    Except String Challenge :=
  if maxNumber = 0 then
    Except.error configurationError
  else
    let number := chosenNumber randNumber maxNumber
    let salt := mkSalt randSalt expires
    let challenge := C.hash alg (salt ++ toString number)
    Except.ok
      { algorithm := alg
        challenge := challenge
        salt := salt
        signature := C.hmac alg key challenge
        maxnumber := maxNumber }

/-- Spam classification verdict carried by the verification data. -/
inductive Classification
  | GOOD
  | BAD
deriving DecidableEq, Repr

/-- Renders a classification for canonical serialization. -/
def classificationStr : Classification → String
  | Classification.GOOD => "GOOD"
  | Classification.BAD => "BAD"

/-- Verification data produced by the external classifier:
`{classification, fields?, fieldsHash?, time?}`. -/
structure VerificationData where
  classification : Classification
  fields : Option (List String)
  fieldsHash : Option String
  time : Option Nat
deriving DecidableEq, Repr

/-- Modelled from the spec: the canonical, deterministic serialization of
the verification data that the classifier signs and the verifier
recomputes. -/
def serializeVD (vd : VerificationData) : String :=
  "classification=" ++ classificationStr vd.classification
    ++ (match vd.fields with
      | none => ""
      | some fs => "&fields=" ++ String.intercalate "," fs)
    ++ (match vd.fieldsHash with
      | none => ""
      | some h => "&fieldsHash=" ++ h)
    ++ (match vd.time with
      | none => ""
      | some t => "&time=" ++ toString t)

/-- Decoded server-signature payload: `{verificationData, signature}`. -/
structure ServerPayload where
  verificationData : VerificationData
  signature : String
deriving DecidableEq, Repr

/-- Result of `verifyServerSignature`: the `verified` flag together with
the verification data, returned only when trusted. -/
structure ServerVerifyResult where
  verified : Bool
  verificationData : Option VerificationData
deriving DecidableEq, Repr

/-- Modelled from the spec: `SignedPayloadVerifier.verify`.  Recomputes
`HMAC(secretKey, canonicalSerialize(verificationData))` and compares it to
the transported signature; on mismatch (or undecodable payload) the data
is discarded as untrusted. -/
def verifyServerSignature (C : Crypto) (key : String)
    (decoded : Option ServerPayload) : ServerVerifyResult :=
  match decoded with
  | none => { verified := false, verificationData := none }
  | some sp =>
    if C.hmac "SHA-256" key (serializeVD sp.verificationData)
        == sp.signature then
      { verified := true, verificationData := some sp.verificationData }
    else
      { verified := false, verificationData := none }

/-- Looks a field up in submitted form data (first match wins, as in
`FormData.get`). -/
def formGet (fd : List (String × String)) (name : String) : Option String :=
  (fd.find? (fun kv => kv.fst == name)).map (fun kv => kv.snd)

/-- Modelled from the spec: the value bound for a named field — the
submitted value, or the empty value when the field is missing. -/
def lookupField (fd : List (String × String)) (name : String) : String :=
  match formGet fd name with
  | some v => v
  | none => ""

/-- Modelled from the spec: the canonical joining rule — the values of
exactly the named fields, in their given order, joined by newlines. -/
def joinFields (fd : List (String × String)) (names : List String) : String :=
  String.intercalate "\n" (names.map (lookupField fd))

/-- Modelled from the spec: `FieldBinder.verify` — hash the canonical
join of the named submitted fields and compare to the expected digest. -/
def verifyFieldsHash (C : Crypto) (fd : List (String × String))
    (names : List String) (expectedHash : String) : Bool :=
  C.hash "SHA-256" (joinFields fd names) == expectedHash

/-- The `maxNumber` the `GET /altcha` handler passes to `createChallenge`
(src/index.ts line 39). -/
def ALTCHA_MAX_NUMBER : Nat := 50000

/-- Response of the `GET /altcha` handler: the challenge as JSON, or a
500 error when challenge creation failed. -/
inductive AltchaResponse
  | ok (ch : Challenge)
  | err (msg : String)
deriving DecidableEq, Repr

/-- The `GET /altcha` handler (src/index.ts lines 34-51): creates a
challenge with the secret HMAC key and `maxNumber = 50000`, returning it
as JSON; a creation failure is caught and returned as a 500 error. -/
def altchaHandler (C : Crypto) (key : String) (randNumber : Nat)
    (randSalt : String) : AltchaResponse :=
  match createChallenge C key "SHA-256" ALTCHA_MAX_NUMBER randNumber randSalt none with
  | Except.ok ch => AltchaResponse.ok ch
  | Except.error _ => AltchaResponse.err "Failed to create challenge"

/-- Response of the `POST /submit` handler. -/
inductive SimpleResult
  | errMissingPayload
  | errInvalidPayload
  | ok
deriving DecidableEq, Repr

/-- The `POST /submit` handler (src/index.ts lines 58-98): reads the
`altcha` form field (a missing or falsy value is a 400 error), verifies
the solution with the secret key, and maps a failed verification to a 400
error response rather than a fault. -/
def submitHandler (C : Crypto) (key : String)
    (decode : String → Option Payload) (fd : List (String × String))
    (now : Nat) : SimpleResult :=
  match formGet fd "altcha" with
  | none => SimpleResult.errMissingPayload
  | some raw =>
    if raw = "" then SimpleResult.errMissingPayload
    else if verifySolution C decode raw key now true then SimpleResult.ok
    else SimpleResult.errInvalidPayload

/-- Response of the `POST /submit_spam_filter` handler. -/
inductive SpamFilterResult
  | errMissingPayload
  | errInvalidPayload
  | errSpam
  | errFieldsHash
  | ok (vd : VerificationData)
deriving DecidableEq, Repr

/-- The `POST /submit_spam_filter` handler (src/index.ts lines 105-162):
reads the `altcha` form field, verifies the server signature, rejects on
failed verification or missing data, rejects a `BAD` classification as
spam, checks the fields hash only when both `fields` and `fieldsHash` are
present, and otherwise accepts the submission. -/
def submitSpamFilterHandler (C : Crypto) (key : String)
    (decode : String → Option ServerPayload)
    (fd : List (String × String)) : SpamFilterResult :=
  match formGet fd "altcha" with
  | none => SpamFilterResult.errMissingPayload
  | some raw =>
    if raw = "" then SpamFilterResult.errMissingPayload
    else
      let r := verifyServerSignature C key (decode raw)
      match r.verified, r.verificationData with
      | true, some vd =>
        if vd.classification = Classification.BAD then
          SpamFilterResult.errSpam
        else
          match vd.fields, vd.fieldsHash with
          | some fs, some fh =>
            if verifyFieldsHash C fd fs fh then SpamFilterResult.ok vd
            else SpamFilterResult.errFieldsHash
          | some _, none => SpamFilterResult.ok vd
          | none, _ => SpamFilterResult.ok vd
      | _, _ => SpamFilterResult.errInvalidPayload

/-- A concrete instance of the crypto primitive used by witnesses: an
injective tagged encoding, so inequality side conditions are decidable at
concrete inputs. -/
def cryptoT : Crypto where
  hash := fun alg msg => "H(" ++ alg ++ "|" ++ msg ++ ")"
  hmac := fun alg key msg => "M(" ++ alg ++ "|" ++ key ++ "|" ++ msg ++ ")"

/-- Solution verification succeeds exactly when the hash check, the
signature check and the expiry check all pass. -/
theorem verifySolutionDecoded_eq_true_iff (C : Crypto) (key : String)
    (p : Payload) (now : Nat) (ce : Bool) :
    verifySolutionDecoded C key p now ce = true ↔
      (C.hash p.algorithm (p.salt ++ toString p.number) = p.challenge
        ∧ C.hmac p.algorithm key p.challenge = p.signature
        ∧ expiryOk ce p.salt now = true) := by
  simp [verifySolutionDecoded, Bool.and_eq_true, beq_iff_eq, and_assoc]

/-- A concrete solution payload carrying an already expired salt marker,
correctly hashed and signed under `cryptoT` with key `"k"`. -/
def pExpired : Payload :=
  { algorithm := "SHA-256"
    salt := "s?expires=5"
    number := 3
    challenge := cryptoT.hash "SHA-256" ("s?expires=5" ++ toString 3)
    signature := cryptoT.hmac "SHA-256" "k"
      (cryptoT.hash "SHA-256" ("s?expires=5" ++ toString 3)) }

/-- C1 counterexample: a payload whose solution-hash check and signature
check both pass yet `verifySolution` (with `checkExpiry = true`, as the
repository calls it) returns `false`, because the salt carries an expiry
marker lying in the past.  Hence "returns true if and only if both the
solution-hash check and the signature check pass" is false as stated. -/
theorem verifySolution_not_iff_two_checks :
    cryptoT.hash pExpired.algorithm (pExpired.salt ++ toString pExpired.number)
        = pExpired.challenge
    ∧ cryptoT.hmac pExpired.algorithm "k" pExpired.challenge = pExpired.signature
    ∧ verifySolutionDecoded cryptoT "k" pExpired 100 true = false := by
  decide

/-- C1 (amended): `verifySolution` returns true iff the solution-hash
check, the signature check, and the expiry check all pass; for a verifying
payload, any change to `challenge` or `signature` makes it return false
unconditionally, and any change to `number` or `salt`, or verification
under a different key, makes it return false whenever the recomputed
digest differs (collision-freeness of the primitive at the changed
input). -/
theorem verifySolution_iff_checks_and_tamper (C : Crypto) (key : String)
    (p : Payload) (now : Nat) (ce : Bool) :
    (verifySolutionDecoded C key p now ce = true ↔
      (C.hash p.algorithm (p.salt ++ toString p.number) = p.challenge
        ∧ C.hmac p.algorithm key p.challenge = p.signature
        ∧ expiryOk ce p.salt now = true))
    ∧ (verifySolutionDecoded C key p now ce = true →
      (∀ c', c' ≠ p.challenge →
        verifySolutionDecoded C key { p with challenge := c' } now ce = false)
      ∧ (∀ sg, sg ≠ p.signature →
        verifySolutionDecoded C key { p with signature := sg } now ce = false)
      ∧ (∀ n', C.hash p.algorithm (p.salt ++ toString n')
            ≠ C.hash p.algorithm (p.salt ++ toString p.number) →
        verifySolutionDecoded C key { p with number := n' } now ce = false)
      ∧ (∀ sl, C.hash p.algorithm (sl ++ toString p.number)
            ≠ C.hash p.algorithm (p.salt ++ toString p.number) →
        verifySolutionDecoded C key { p with salt := sl } now ce = false)
      ∧ (∀ k', C.hmac p.algorithm k' p.challenge
            ≠ C.hmac p.algorithm key p.challenge →
        verifySolutionDecoded C k' p now ce = false)) := by
  refine ⟨verifySolutionDecoded_eq_true_iff C key p now ce, fun hv => ?_⟩
  obtain ⟨h1, h2, h3⟩ := (verifySolutionDecoded_eq_true_iff C key p now ce).mp hv
  refine ⟨fun c' hne => ?_, fun sg hne => ?_, fun n' hne => ?_,
    fun sl hne => ?_, fun k' hne => ?_⟩
  · rw [Bool.eq_false_iff]
    intro hv'
    obtain ⟨hh, -, -⟩ := (verifySolutionDecoded_eq_true_iff C key _ now ce).mp hv'
    exact hne (hh.symm.trans h1)
  · rw [Bool.eq_false_iff]
    intro hv'
    obtain ⟨-, hs, -⟩ := (verifySolutionDecoded_eq_true_iff C key _ now ce).mp hv'
    exact hne (hs.symm.trans h2)
  · rw [Bool.eq_false_iff]
    intro hv'
    obtain ⟨hh, -, -⟩ := (verifySolutionDecoded_eq_true_iff C key _ now ce).mp hv'
    exact hne (hh.trans h1.symm)
  · rw [Bool.eq_false_iff]
    intro hv'
    obtain ⟨hh, -, -⟩ := (verifySolutionDecoded_eq_true_iff C key _ now ce).mp hv'
    exact hne (hh.trans h1.symm)
  · rw [Bool.eq_false_iff]
    intro hv'
    obtain ⟨-, hs, -⟩ := (verifySolutionDecoded_eq_true_iff C k' p now ce).mp hv'
    exact hne (hs.trans h2.symm)

/-- A concrete valid solution payload under `cryptoT` and key `"k"`,
without an expiry marker. -/
def pValid : Payload :=
  { algorithm := "SHA-256"
    salt := "abc"
    number := 7
    challenge := cryptoT.hash "SHA-256" ("abc" ++ toString 7)
    signature := cryptoT.hmac "SHA-256" "k"
      (cryptoT.hash "SHA-256" ("abc" ++ toString 7)) }

/-- C1 witness: the amended characterization and tamper consequences at a
concrete verifying payload. -/
theorem verifySolution_iff_checks_and_tamper_witness :
    verifySolutionDecoded cryptoT "k" pValid 100 true = true
    ∧ verifySolutionDecoded cryptoT "k" { pValid with challenge := "x" } 100 true = false
    ∧ verifySolutionDecoded cryptoT "k" { pValid with signature := "x" } 100 true = false
    ∧ verifySolutionDecoded cryptoT "k" { pValid with number := 8 } 100 true = false
    ∧ verifySolutionDecoded cryptoT "k" { pValid with salt := "abd" } 100 true = false
    ∧ verifySolutionDecoded cryptoT "notk" pValid 100 true = false := by
  have hv : verifySolutionDecoded cryptoT "k" pValid 100 true = true := by decide
  have h := (verifySolution_iff_checks_and_tamper cryptoT "k" pValid 100 true).2 hv
  exact ⟨hv, h.1 "x" (by decide), h.2.1 "x" (by decide), h.2.2.1 8 (by decide),
    h.2.2.2.1 "abd" (by decide), h.2.2.2.2 "notk" (by decide)⟩

/-- C2: for every valid secret key and positive `maxNumber`, issuance
succeeds and produces a challenge whose hidden number lies in
`[0, maxNumber]`, whose `challenge` field is the digest of
`salt ++ number`, and whose `signature` field is the HMAC of the
challenge under the secret key. -/
theorem createChallenge_valid (C : Crypto) (key alg : String)
    (maxNumber randNumber : Nat) (randSalt : String) (expires : Option Nat)
    (h : 0 < maxNumber) :
    ∃ ch : Challenge,
      createChallenge C key alg maxNumber randNumber randSalt expires = Except.ok ch
      ∧ ∃ n : Nat, n ≤ maxNumber
        ∧ ch.challenge = C.hash alg (ch.salt ++ toString n)
        ∧ ch.signature = C.hmac alg key ch.challenge := by
  have hne : maxNumber ≠ 0 := by omega
  refine ⟨_, by rw [createChallenge, if_neg hne],
    chosenNumber randNumber maxNumber, ?_, rfl, rfl⟩
  exact Nat.lt_succ_iff.mp (Nat.mod_lt _ (Nat.succ_pos maxNumber))

/-- C2 witness: issuance at a concrete key, bound and random draw. -/
theorem createChallenge_valid_witness :
    0 < 1000
    ∧ ∃ ch : Challenge,
      createChallenge cryptoT "k" "SHA-256" 1000 742 "salt" none = Except.ok ch
      ∧ ∃ n : Nat, n ≤ 1000
        ∧ ch.challenge = cryptoT.hash "SHA-256" (ch.salt ++ toString n)
        ∧ ch.signature = cryptoT.hmac "SHA-256" "k" ch.challenge :=
  ⟨by decide, createChallenge_valid cryptoT "k" "SHA-256" 1000 742 "salt" none (by decide)⟩

/-- C3: server-signature verification returns `verified = true` with the
verification data exactly when the signature is the HMAC of the canonical
serialization under the secret key; on mismatch the data is discarded, and
any mutation of the signed data whose serialization digests differently
is rejected. -/
theorem verifyServerSignature_iff_and_tamper (C : Crypto) (key : String)
    (sp : ServerPayload) :
    (verifyServerSignature C key (some sp) =
        { verified := true, verificationData := some sp.verificationData } ↔
      C.hmac "SHA-256" key (serializeVD sp.verificationData) = sp.signature)
    ∧ (C.hmac "SHA-256" key (serializeVD sp.verificationData) ≠ sp.signature →
      verifyServerSignature C key (some sp) =
        { verified := false, verificationData := none })
    ∧ (∀ vd', C.hmac "SHA-256" key (serializeVD vd') ≠ sp.signature →
      verifyServerSignature C key
          (some { verificationData := vd', signature := sp.signature }) =
        { verified := false, verificationData := none }) := by
  refine ⟨?_, fun h => ?_, fun vd' h => ?_⟩
  · by_cases h : C.hmac "SHA-256" key (serializeVD sp.verificationData) = sp.signature
    · simp [verifyServerSignature, beq_iff_eq, h]
    · simp [verifyServerSignature, beq_iff_eq, h]
  · simp [verifyServerSignature, beq_iff_eq, h]
  · simp [verifyServerSignature, beq_iff_eq, h]

/-- Verification data as signed by the external classifier in the
concrete scenario. -/
def vdGood : VerificationData :=
  { classification := Classification.GOOD
    fields := some ["email", "message"]
    fieldsHash := some "FH"
    time := some 1 }

/-- The honestly signed server payload for `vdGood` under key `"k"`. -/
def spSigned : ServerPayload :=
  { verificationData := vdGood
    signature := cryptoT.hmac "SHA-256" "k" (serializeVD vdGood) }

/-- `vdGood` with one field mutated after signing. -/
def vdMutated : VerificationData :=
  { vdGood with fields := some ["email", "messagX"] }

/-- C3 witness: acceptance of the honestly signed payload, rejection under
a different key, and rejection after a one-field mutation. -/
theorem verifyServerSignature_iff_and_tamper_witness :
    verifyServerSignature cryptoT "k" (some spSigned) =
      { verified := true, verificationData := some spSigned.verificationData }
    ∧ verifyServerSignature cryptoT "notk" (some spSigned) =
      { verified := false, verificationData := none }
    ∧ verifyServerSignature cryptoT "k"
        (some { verificationData := vdMutated, signature := spSigned.signature }) =
      { verified := false, verificationData := none } := by
  refine ⟨?_, ?_, ?_⟩
  · exact (verifyServerSignature_iff_and_tamper cryptoT "k" spSigned).1.mpr (by decide)
  · exact (verifyServerSignature_iff_and_tamper cryptoT "notk" spSigned).2.1 (by decide)
  · exact (verifyServerSignature_iff_and_tamper cryptoT "k" spSigned).2.2 vdMutated (by decide)

/-- C4: field binding hashes exactly the named fields in their given
order (a missing field contributing the empty value) and succeeds iff the
digest equals the expected hash; it succeeds whenever the named submitted
fields match those hashed at classification time, and fails whenever the
recomputed digest differs from the classification-time digest. -/
theorem verifyFieldsHash_spec (C : Crypto) (fd fd0 : List (String × String))
    (names : List String) (expected : String) :
    (verifyFieldsHash C fd names expected = true ↔
      C.hash "SHA-256" (String.intercalate "\n" (names.map (lookupField fd)))
        = expected)
    ∧ (∀ n, formGet fd n = none → lookupField fd n = "")
    ∧ ((∀ n ∈ names, lookupField fd n = lookupField fd0 n) →
      verifyFieldsHash C fd names (C.hash "SHA-256" (joinFields fd0 names)) = true)
    ∧ (C.hash "SHA-256" (joinFields fd names)
        ≠ C.hash "SHA-256" (joinFields fd0 names) →
      verifyFieldsHash C fd names (C.hash "SHA-256" (joinFields fd0 names)) = false) := by
  refine ⟨?_, fun n hn => ?_, fun hsame => ?_, fun hdiff => ?_⟩
  · simp [verifyFieldsHash, joinFields, beq_iff_eq]
  · simp [lookupField, hn]
  · have hj : joinFields fd names = joinFields fd0 names := by
      unfold joinFields
      rw [List.map_congr_left hsame]
    simp [verifyFieldsHash, hj]
  · simp [verifyFieldsHash, beq_iff_eq]
    exact hdiff

/-- The form data the classifier saw, and the tampered form data with the
`message` value changed before posting. -/
def fdOriginal : List (String × String) :=
  [("email", "a@b"), ("message", "hello")]

/-- `fdOriginal` with the `message` field changed after classification. -/
def fdTampered : List (String × String) :=
  [("email", "a@b"), ("message", "buy!")]

/-- C4 witness: binding succeeds on the exact classified fields and fails
after changing the `message` value. -/
theorem verifyFieldsHash_spec_witness :
    verifyFieldsHash cryptoT fdOriginal ["email", "message"]
      (cryptoT.hash "SHA-256" (joinFields fdOriginal ["email", "message"])) = true
    ∧ verifyFieldsHash cryptoT fdTampered ["email", "message"]
      (cryptoT.hash "SHA-256" (joinFields fdOriginal ["email", "message"])) = false
    ∧ lookupField fdOriginal "absent" = "" := by
  refine ⟨?_, ?_, ?_⟩
  · exact (verifyFieldsHash_spec cryptoT fdOriginal fdOriginal ["email", "message"]
      "").2.2.1 (fun n _ => rfl)
  · exact (verifyFieldsHash_spec cryptoT fdTampered fdOriginal ["email", "message"]
      "").2.2.2 (by decide)
  · exact (verifyFieldsHash_spec cryptoT fdOriginal fdOriginal [] "").2.1
      "absent" (by decide)

/-- C5: on the spam-filter path, a payload that verifies under the
correct key but whose verification data is classified `BAD` is rejected
as spam, regardless of any further field checks on the form data. -/
theorem spamFilter_rejects_bad (C : Crypto) (key : String)
    (decode : String → Option ServerPayload) (fd : List (String × String))
    (raw : String) (sp : ServerPayload)
    (hfd : formGet fd "altcha" = some raw) (hraw : raw ≠ "")
    (hdec : decode raw = some sp)
    (hsig : C.hmac "SHA-256" key (serializeVD sp.verificationData) = sp.signature)
    (hbad : sp.verificationData.classification = Classification.BAD) :
    submitSpamFilterHandler C key decode fd = SpamFilterResult.errSpam := by
  unfold submitSpamFilterHandler verifyServerSignature
  rw [hfd]
  simp [hraw, hdec, beq_iff_eq, hsig, hbad]

/-- Verification data classified `BAD` by the external classifier. -/
def vdBad : VerificationData :=
  { classification := Classification.BAD
    fields := some ["email"]
    fieldsHash := some "FH"
    time := none }

/-- The honestly signed payload for `vdBad` under key `"k"`. -/
def spBad : ServerPayload :=
  { verificationData := vdBad
    signature := cryptoT.hmac "SHA-256" "k" (serializeVD vdBad) }

/-- Verification data with a `GOOD` classification but no fields hash. -/
def vdNoHash : VerificationData :=
  { classification := Classification.GOOD
    fields := some ["email"]
    fieldsHash := none
    time := none }

/-- The honestly signed payload for `vdNoHash` under key `"k"`. -/
def spNoHash : ServerPayload :=
  { verificationData := vdNoHash
    signature := cryptoT.hmac "SHA-256" "k" (serializeVD vdNoHash) }

/-- A concrete transport decoder used by the handler witnesses. -/
def decodeT : String → Option ServerPayload := fun s =>
  if s = "P" then some spBad
  else if s = "Q" then some spNoHash
  else none

/-- C5 witness: a correctly signed `BAD` payload is rejected as spam. -/
theorem spamFilter_rejects_bad_witness :
    submitSpamFilterHandler cryptoT "k" decodeT
      [("altcha", "P"), ("email", "a@b")] = SpamFilterResult.errSpam :=
  spamFilter_rejects_bad cryptoT "k" decodeT
    [("altcha", "P"), ("email", "a@b")] "P" spBad
    (by decide) (by decide) (by decide) rfl rfl

/-- C6: solution verification is a total boolean function — an
undecodable payload is simply "not verified" (`false`) — and the
`POST /submit` handler maps every failed verification to the rejected
request response, never to a fault. -/
theorem verifySolution_malformed_rejected (C : Crypto) (key : String)
    (decode : String → Option Payload) (now : Nat) :
    (∀ raw ce, decode raw = none → verifySolution C decode raw key now ce = false)
    ∧ (∀ fd raw, formGet fd "altcha" = some raw → raw ≠ "" →
      verifySolution C decode raw key now true = false →
      submitHandler C key decode fd now = SimpleResult.errInvalidPayload) := by
  refine ⟨fun raw ce h => ?_, fun fd raw h1 h2 h3 => ?_⟩
  · simp [verifySolution, h]
  · unfold submitHandler
    rw [h1]
    simp [h2, h3]

/-- A transport decoder that fails on every input (undecodable blobs). -/
def decodeNone : String → Option Payload := fun _ => none

/-- C6 witness: an undecodable payload is not verified, and the submit
handler rejects it as an invalid-payload response. -/
theorem verifySolution_malformed_rejected_witness :
    verifySolution cryptoT decodeNone "garbage" "k" 100 true = false
    ∧ submitHandler cryptoT "k" decodeNone [("altcha", "garbage")] 100 =
      SimpleResult.errInvalidPayload :=
  ⟨(verifySolution_malformed_rejected cryptoT "k" decodeNone 100).1 "garbage" true rfl,
    (verifySolution_malformed_rejected cryptoT "k" decodeNone 100).2
      [("altcha", "garbage")] "garbage" (by decide) (by decide) (by decide)⟩

/-- C7: with `checkExpiry = true`, a payload whose salt embeds a past
expiry marker never verifies; and a failing hash or signature check makes
verification fail at every time and for either expiry setting. -/
theorem verifySolution_expiry (C : Crypto) (key : String) (p : Payload) :
    (∀ now t, extractExpires p.salt = some t → t < now →
      verifySolutionDecoded C key p now true = false)
    ∧ (∀ now ce, C.hash p.algorithm (p.salt ++ toString p.number) ≠ p.challenge →
      verifySolutionDecoded C key p now ce = false)
    ∧ (∀ now ce, C.hmac p.algorithm key p.challenge ≠ p.signature →
      verifySolutionDecoded C key p now ce = false) := by
  refine ⟨fun now t hexp hpast => ?_, fun now ce h => ?_, fun now ce h => ?_⟩
  · rw [Bool.eq_false_iff]
    intro hv
    obtain ⟨-, -, hex⟩ := (verifySolutionDecoded_eq_true_iff C key p now true).mp hv
    simp [expiryOk, hexp] at hex
    omega
  · rw [Bool.eq_false_iff]
    intro hv
    exact h ((verifySolutionDecoded_eq_true_iff C key p now ce).mp hv).1
  · rw [Bool.eq_false_iff]
    intro hv
    exact h ((verifySolutionDecoded_eq_true_iff C key p now ce).mp hv).2.1

/-- C7 witness: the expired payload fails at a later time, a wrong
challenge fails independently of expiry, and a wrong key fails
independently of expiry. -/
theorem verifySolution_expiry_witness :
    verifySolutionDecoded cryptoT "k" pExpired 100 true = false
    ∧ verifySolutionDecoded cryptoT "k" { pValid with challenge := "x" } 0 false = false
    ∧ verifySolutionDecoded cryptoT "bad" pValid 0 false = false :=
  ⟨(verifySolution_expiry cryptoT "k" pExpired).1 100 5 (by decide) (by decide),
    (verifySolution_expiry cryptoT "k" { pValid with challenge := "x" }).2.1
      0 false (by decide),
    (verifySolution_expiry cryptoT "bad" pValid).2.2 0 false (by decide)⟩

/-- C8: the four core operations are deterministic functions of their
explicit inputs and the secret key — two invocations with identical
inputs and the same key produce identical results. -/
theorem coreOperations_deterministic (C : Crypto) :
    (∀ (k1 k2 a1 a2 : String) (m1 m2 r1 r2 : Nat) (s1 s2 : String)
      (e1 e2 : Option Nat), k1 = k2 → a1 = a2 → m1 = m2 → r1 = r2 →
      s1 = s2 → e1 = e2 →
      createChallenge C k1 a1 m1 r1 s1 e1 = createChallenge C k2 a2 m2 r2 s2 e2)
    ∧ (∀ (k1 k2 : String) (p1 p2 : Payload) (n1 n2 : Nat) (c1 c2 : Bool),
      k1 = k2 → p1 = p2 → n1 = n2 → c1 = c2 →
      verifySolutionDecoded C k1 p1 n1 c1 = verifySolutionDecoded C k2 p2 n2 c2)
    ∧ (∀ (k1 k2 : String) (d1 d2 : Option ServerPayload), k1 = k2 → d1 = d2 →
      verifyServerSignature C k1 d1 = verifyServerSignature C k2 d2)
    ∧ (∀ (f1 f2 : List (String × String)) (n1 n2 : List String)
      (h1 h2 : String), f1 = f2 → n1 = n2 → h1 = h2 →
      verifyFieldsHash C f1 n1 h1 = verifyFieldsHash C f2 n2 h2) := by
  refine ⟨?_, ?_, ?_, ?_⟩ <;> intros <;> subst_vars <;> rfl

/-- C8 witness: determinism at concrete inputs for all four operations. -/
theorem coreOperations_deterministic_witness :
    createChallenge cryptoT "k" "SHA-256" 5 2 "s" none =
      createChallenge cryptoT "k" "SHA-256" 5 2 "s" none
    ∧ verifySolutionDecoded cryptoT "k" pValid 100 true =
      verifySolutionDecoded cryptoT "k" pValid 100 true
    ∧ verifyServerSignature cryptoT "k" (some spSigned) =
      verifyServerSignature cryptoT "k" (some spSigned)
    ∧ verifyFieldsHash cryptoT fdOriginal ["email"] "h" =
      verifyFieldsHash cryptoT fdOriginal ["email"] "h" :=
  ⟨(coreOperations_deterministic cryptoT).1 "k" "k" "SHA-256" "SHA-256" 5 5 2 2
      "s" "s" none none rfl rfl rfl rfl rfl rfl,
    (coreOperations_deterministic cryptoT).2.1 "k" "k" pValid pValid 100 100
      true true rfl rfl rfl rfl,
    (coreOperations_deterministic cryptoT).2.2.1 "k" "k" (some spSigned)
      (some spSigned) rfl rfl,
    (coreOperations_deterministic cryptoT).2.2.2 fdOriginal fdOriginal
      ["email"] ["email"] "h" "h" rfl rfl rfl⟩

/-- C9: issuance fails exactly on misconfiguration (`maxNumber = 0`),
reporting a configuration error rather than clamping; and the
repository's `GET /altcha` handler, whose `maxNumber` is the valid
constant 50000, always issues a challenge — no per-request error response
ever arises from configuration. -/
theorem createChallenge_config_and_handler (C : Crypto) (key alg : String)
    (mx rn : Nat) (rs : String) (ex : Option Nat) :
    ((∃ e, createChallenge C key alg mx rn rs ex = Except.error e) ↔ mx = 0)
    ∧ (mx = 0 →
      createChallenge C key alg mx rn rs ex = Except.error configurationError)
    ∧ (∀ (rn' : Nat) (rs' : String), ∃ ch,
      altchaHandler C key rn' rs' = AltchaResponse.ok ch) := by
  refine ⟨⟨?_, ?_⟩, fun h => by simp [createChallenge, h], fun rn' rs' => ?_⟩
  · rintro ⟨e, he⟩
    by_contra hne
    unfold createChallenge at he
    rw [if_neg hne] at he
    exact Except.noConfusion he
  · intro h
    exact ⟨configurationError, by simp [createChallenge, h]⟩
  · have h50 : ALTCHA_MAX_NUMBER ≠ 0 := by decide
    unfold altchaHandler createChallenge
    rw [if_neg h50]
    exact ⟨_, rfl⟩

/-- C9 witness: issuance with `maxNumber = 0` reports the configuration
error, and the repository handler issues a challenge. -/
theorem createChallenge_config_and_handler_witness :
    ((∃ e, createChallenge cryptoT "k" "SHA-256" 0 1 "s" none = Except.error e)
      ↔ (0 : Nat) = 0)
    ∧ createChallenge cryptoT "k" "SHA-256" 0 1 "s" none =
      Except.error configurationError
    ∧ ∃ ch, altchaHandler cryptoT "k" 1 "s" = AltchaResponse.ok ch :=
  ⟨(createChallenge_config_and_handler cryptoT "k" "SHA-256" 0 1 "s" none).1,
    (createChallenge_config_and_handler cryptoT "k" "SHA-256" 0 1 "s" none).2.1 rfl,
    (createChallenge_config_and_handler cryptoT "k" "SHA-256" 0 1 "s" none).2.2 1 "s"⟩

/-- C10: on the spam-filter path, when the payload verifies, the
classification is not `BAD`, and the verification data lacks the fields
list or the fields hash, the field-binding check is skipped and the
submission is accepted as successful for every form content. -/
theorem spamFilter_skips_binding (C : Crypto) (key : String)
    (decode : String → Option ServerPayload) (fd : List (String × String))
    (raw : String) (sp : ServerPayload)
    (hfd : formGet fd "altcha" = some raw) (hraw : raw ≠ "")
    (hdec : decode raw = some sp)
    (hsig : C.hmac "SHA-256" key (serializeVD sp.verificationData) = sp.signature)
    (hgood : sp.verificationData.classification ≠ Classification.BAD)
    (hmiss : sp.verificationData.fields = none
      ∨ sp.verificationData.fieldsHash = none) :
    submitSpamFilterHandler C key decode fd =
      SpamFilterResult.ok sp.verificationData := by
  unfold submitSpamFilterHandler verifyServerSignature
  rw [hfd]
  rcases hmiss with hm | hm
  · simp [hraw, hdec, beq_iff_eq, hsig, hgood, hm]
  · rcases hfields : sp.verificationData.fields with _ | fs
    · simp [hraw, hdec, beq_iff_eq, hsig, hgood, hfields]
    · simp [hraw, hdec, beq_iff_eq, hsig, hgood, hfields, hm]

/-- C10 witness: a verified `GOOD` payload without a fields hash is
accepted although the submitted `email` value matches no recorded hash. -/
theorem spamFilter_skips_binding_witness :
    submitSpamFilterHandler cryptoT "k" decodeT
      [("altcha", "Q"), ("email", "anything-else")] =
      SpamFilterResult.ok vdNoHash :=
  spamFilter_skips_binding cryptoT "k" decodeT
    [("altcha", "Q"), ("email", "anything-else")] "Q" spNoHash
    (by decide) (by decide) (by decide) rfl (by decide) (Or.inr rfl)

end Altcha
